import Mathlib

/-!
Verification of the pass-based storage-authorization core of
SecureAccessTokenAuthorizer (ZKAPAuthorizer).

The development shallowly embeds the two core source files,
`_zkapauthorizer/_storage_server.py` (server-side authorization gate) and
`_zkapauthorizer/spending.py` (client-side pass-group lifecycle), together
with the parts of `storage_common.py` and the voucher store that the
repository snapshot does not contain (those definitions are modelled from
the specification and say so in their doc comments).

Conventions of the embedding:
* Python `bytes` values are `List Nat` (one `Nat` per byte).
* Raising an exception is an `Except.error` result; methods that forward a
  call to the wrapped storage object return, on success, a record
  describing the forwarded call (its arguments), so "the underlying
  operation is not invoked" is visible as an `Except.error` result.
* The external `privacypass` cryptographic library is out of scope for the
  repository: its operations are a record of oracle functions
  (`CryptoOps`), each returning `Option` so that a `none` models the
  operation raising an exception.
-/

set_option autoImplicit false

/-- Bytes: a Python `bytes` value, one natural number (0‒255 intended) per
byte.  No bound is imposed because none of the verified code depends on
one. -/
abbrev Bytes := List Nat

/-- A storage index (an opaque byte string identifying a bucket/slot). -/
abbrev StorageIndex := Bytes

/-! ## The cryptographic oracle (external `privacypass` library)

`_is_invalid_pass` calls five external cryptographic operations.  Each one
may raise; the `except Exception` block in the source catches anything any
of them raises.  They are modelled as oracle functions returning `Option`:
`none` means the call raised an exception. -/

/-- Oracle record for the external `privacypass` primitives used by
`ZKAPAuthorizerStorageServer._is_invalid_pass`, closed over the server's
signing key.  `encodeUtf8` models `message.encode("utf-8")` (total).
The remaining fields model the fallible library calls. -/
structure CryptoOps (Msg Preimage Signature UTok VerKey : Type) where
  encodeUtf8 : Msg → Bytes
  decodePreimageBase64 : Bytes → Option Preimage
  decodeSignatureBase64 : Bytes → Option Signature
  rederiveUnblindedToken : Preimage → Option UTok
  deriveVerificationKeySha512 : UTok → Option VerKey
  invalidSha512 : VerKey → Signature → Bytes → Option Bool

/-- Python `bytes.split(sep)` for a single-byte separator: split at every
occurrence of `sep`, keeping empty parts (so `b"".split(b" ") == [b""]`).
Used to model `pass_.split(b" ")`. -/
def splitOnByte (sep : Nat) : Bytes → List Bytes
  | [] => [[]]
  | b :: rest =>
    let parts := splitOnByte sep rest
    if b = sep then
      [] :: parts
    else
      match parts with
      | [] => [[b]]
      | p :: ps => (b :: p) :: ps

/-- The exceptions `_is_invalid_pass` can encounter internally: the tuple
unpacking of `pass_.split(b" ")` raising `ValueError` (the delimiter is
missing or appears more than once), or any of the cryptographic library
calls raising. -/
inductive PassError where
  | valueError
  | cryptoError
  deriving DecidableEq, Repr

/-- The body of the `try:` block of
`ZKAPAuthorizerStorageServer._is_invalid_pass` (lines 138‒145 of
`_storage_server.py`): split the pass on the space byte into exactly two
halves, base64-decode the preimage and the signature, rederive the
unblinded token with the signing key, derive the verification key and
check the proposed signature against the UTF-8 encoded message.  An
`Except.error` is an exception escaping the block. -/
def isInvalidPassCore {Msg Preimage Signature UTok VerKey : Type}
    (ops : CryptoOps Msg Preimage Signature UTok VerKey)
    (message : Msg) (pass_ : Bytes) : Except PassError Bool :=
  match splitOnByte 32 pass_ with
  | [preimage_base64, signature_base64] =>
    match ops.decodePreimageBase64 preimage_base64 with
    | none => .error .cryptoError
    | some preimage =>
      match ops.decodeSignatureBase64 signature_base64 with
      | none => .error .cryptoError
      | some proposed_signature =>
        match ops.rederiveUnblindedToken preimage with
        | none => .error .cryptoError
        | some unblinded_token =>
          match ops.deriveVerificationKeySha512 unblinded_token with
          | none => .error .cryptoError
          | some verification_key =>
            match ops.invalidSha512 verification_key proposed_signature
                (ops.encodeUtf8 message) with
            | none => .error .cryptoError
            | some invalid_pass => .ok invalid_pass
  | _ => .error .valueError

/-- `ZKAPAuthorizerStorageServer._is_invalid_pass`: run the `try:` body and
turn any exception into `True` (invalid).  Returns `true` when the pass is
NOT valid. -/
def is_invalid_pass {Msg Preimage Signature UTok VerKey : Type}
    (ops : CryptoOps Msg Preimage Signature UTok VerKey)
    (message : Msg) (pass_ : Bytes) : Bool :=
  match isInvalidPassCore ops message pass_ with
  | .ok invalid_pass => invalid_pass
  | .error _ => true

/-- `ZKAPAuthorizerStorageServer._validate_passes`: keep the passes for
which `_is_invalid_pass` is false, in order. -/
def validate_passes {Msg Preimage Signature UTok VerKey : Type}
    (ops : CryptoOps Msg Preimage Signature UTok VerKey)
    (message : Msg) (passes : List Bytes) : List Bytes :=
  passes.filter (fun pass_ => !(is_invalid_pass ops message pass_))

/-! ## `storage_common.py` (absent from the snapshot): modelled from the spec -/

/-- Modelled from the spec: the operation-kind tags whose binding messages
`storage_common.py` (absent from `src/`) derives.  Spec §4.3: "each
authorized operation kind binds its passes to a distinct message
deterministically derived from (operation kind tag, storage index)". -/
inductive OpKind where
  | allocate_buckets
  | add_lease
  | renew_lease
  | slot_testv_and_readv_and_writev
  deriving DecidableEq, Repr

/-- Modelled from the spec: a binding message is the pair of the operation
kind tag and the storage index (a deterministic derivation that is
injective across kinds and indices, as §4.3 requires). -/
abbrev Message := OpKind × StorageIndex

/-- Modelled from the spec: `allocate_buckets_message` of
`storage_common.py` (absent from `src/`). -/
def allocate_buckets_message (storage_index : StorageIndex) : Message :=
  (OpKind.allocate_buckets, storage_index)

/-- Modelled from the spec: `add_lease_message` of `storage_common.py`
(absent from `src/`). -/
def add_lease_message (storage_index : StorageIndex) : Message :=
  (OpKind.add_lease, storage_index)

/-- Modelled from the spec: `renew_lease_message` of `storage_common.py`
(absent from `src/`). -/
def renew_lease_message (storage_index : StorageIndex) : Message :=
  (OpKind.renew_lease, storage_index)

/-- Modelled from the spec: `slot_testv_and_readv_and_writev_message` of
`storage_common.py` (absent from `src/`). -/
def slot_testv_and_readv_and_writev_message (storage_index : StorageIndex) :
    Message :=
  (OpKind.slot_testv_and_readv_and_writev, storage_index)

/-- Modelled from the spec: `required_for_bytes` of the PassAccounting
component (`storage_common.py`, absent from `src/`), §4.2:
`ceil(max(size,0) / bytes_per_pass)`.  The size is a natural number here,
so `max(size,0) = size`; the ceiling is the usual `(size + b - 1) / b`. -/
def required_for_bytes (bytes_per_pass : Nat) (size : Nat) : Nat :=
  (size + bytes_per_pass - 1) / bytes_per_pass

/-- Modelled from the spec: `required_passes` of `storage_common.py`
(absent from `src/`; imported and used by `_storage_server.py` as
`required_passes(BYTES_PER_PASS, sharenums, allocated_size)`).  Spec §4.2
(`required_for_allocation`): "equal to
`required_for_bytes(bytes_per_pass, allocated_size)`; the number of shares
does not multiply cost". -/
def required_passes (bytes_per_pass : Nat) (_sharenums : Finset Nat)
    (allocated_size : Nat) : Nat :=
  required_for_bytes bytes_per_pass allocated_size

/-! ## Test-and-write vectors (`allmydata.interfaces.TestAndWriteVectorsForShares`)

The Python value is a dict mapping a share number to a tuple
`(test_vector, data_vector, new_length)` where the data vector is a list
of `(offset, data_bytes)` fragments.  The dict is embedded as the list of
its items. -/

/-- One share's entry of a test-and-write vector: the (opaque) test
vector, the data fragments to write as `(offset, bytes)` pairs, and the
(opaque) requested new length. -/
structure TWV where
  test : List Nat
  data : List (Nat × Bytes)
  new_length : Option Int
  deriving DecidableEq, Repr

/-- The items of the `tw_vectors` dict: share number paired with that
share's test-and-write vector. -/
abbrev TWVectors := List (Nat × TWV)

/-- Modelled from the spec: `has_writes` of `storage_common.py` (absent
from `src/`), §4.3: "determine whether the write vectors contain any
actual write (`shares_written` non-empty)" — some share's data-fragment
list is non-empty. -/
def has_writes (tw_vectors : TWVectors) : Bool :=
  tw_vectors.any (fun item => !item.2.data.isEmpty)

/-- `get_sharenums` (`_storage_server.py` lines 280‒292): the set of share
numbers whose entry has a truthy (non-empty) data vector. -/
def get_sharenums (tw_vectors : TWVectors) : Finset Nat :=
  ((tw_vectors.filter (fun item => !item.2.data.isEmpty)).map
    Prod.fst).toFinset

/-- `get_allocated_size` (`_storage_server.py` lines 295‒309): the largest
`offset + len(data)` over the fragments of the shares with a non-empty
data vector.  Python's `max` raises `ValueError` on an empty sequence,
modelled by `none`; for each written share the inner `max` ranges over a
non-empty fragment list of natural numbers, so folding `max` with base `0`
agrees with it. -/
def get_allocated_size (tw_vectors : TWVectors) : Option Nat :=
  let sizes :=
    (tw_vectors.filter (fun item => !item.2.data.isEmpty)).map
      (fun item =>
        (item.2.data.map (fun frag => frag.1 + frag.2.length)).foldr max 0)
  if sizes.isEmpty then none else some (sizes.foldr max 0)

/-! ## Leases and the wrapped storage object -/

/-- A lease on a slot; only its expiration time is consulted
(`lease.get_expiration_time()`). -/
structure Lease where
  expiration : Int
  deriving DecidableEq, Repr

/-- The wrapped `RIStorageServer` (`self._original`), restricted to the
one query the authorization gate makes of it:
`get_slot_leases(storage_index)`. -/
structure OrigStorage where
  get_slot_leases : StorageIndex → List Lease

/-- `has_active_lease` (`_storage_server.py` lines 312‒330): some lease on
the storage index expires strictly after `now`. -/
def has_active_lease (storage_server : OrigStorage)
    (storage_index : StorageIndex) (now : Int) : Bool :=
  (storage_server.get_slot_leases storage_index).any
    (fun lease => decide (lease.expiration > now))

/-! ## The authorization gate (`ZKAPAuthorizerStorageServer`) -/

/-- An exception escaping a gate method: `MorePassesRequired(valid_count,
required_count)` raised by the pass-quantity checks, or the `ValueError`
Python's `max(())` would raise inside `get_allocated_size` when no share
is written (unreachable on the paths the gate actually takes, which guard
on `has_writes`). -/
inductive StorageError where
  | morePassesRequired (valid_count : Nat) (required_count : Nat)
  | valueError
  deriving DecidableEq, Repr

/-- `check_pass_quantity_for_write` (`_storage_server.py` lines 333‒352):
raise `MorePassesRequired(valid_count, required_pass_count)` when the
valid-pass count is below `required_passes(BYTES_PER_PASS, sharenums,
allocated_size)`, else return `None`.  `bytes_per_pass` stands for the
`BYTES_PER_PASS` constant of the absent `storage_common.py` (spec §6: "a
fixed positive integer"), threaded as a parameter because its value is
not in the snapshot. -/
def check_pass_quantity_for_write (bytes_per_pass : Nat)
    (valid_count : Nat) (sharenums : Finset Nat) (allocated_size : Nat) :
    Except StorageError Unit :=
  let required_pass_count :=
    required_passes bytes_per_pass sharenums allocated_size
  if valid_count < required_pass_count then
    .error (.morePassesRequired valid_count required_pass_count)
  else
    .ok ()

/-- `check_pass_quantity_for_mutable_write` (`_storage_server.py` lines
355‒367): compute the written share numbers and the allocated size from
the vectors and defer to `check_pass_quantity_for_write`. -/
def check_pass_quantity_for_mutable_write (bytes_per_pass : Nat)
    (valid_count : Nat) (tw_vectors : TWVectors) :
    Except StorageError Unit :=
  let sharenums := get_sharenums tw_vectors
  match get_allocated_size tw_vectors with
  | none => .error .valueError
  | some allocated_size =>
    check_pass_quantity_for_write bytes_per_pass valid_count sharenums
      allocated_size

/-- The state of a `ZKAPAuthorizerStorageServer`: the wrapped storage
object (`self._original`), the cryptographic oracle closed over the
signing key (`self._signing_key` and the `privacypass` library), the
injected clock's current reading (`self._clock.seconds()`), and the
`BYTES_PER_PASS` constant of the absent `storage_common.py`. -/
structure Server (Preimage Signature UTok VerKey : Type) where
  ops : CryptoOps Message Preimage Signature UTok VerKey
  original : OrigStorage
  clock_seconds : Int
  bytes_per_pass : Nat

/-- The call `remote_allocate_buckets` forwards to
`self._original.remote_allocate_buckets(...)` on success (the pass
argument is stripped; everything else is passed through). -/
structure AllocForward where
  storage_index : StorageIndex
  renew_secret : Bytes
  cancel_secret : Bytes
  sharenums : Finset Nat
  allocated_size : Nat
  canary : Nat
  deriving DecidableEq

/-- `ZKAPAuthorizerStorageServer.remote_allocate_buckets`
(`_storage_server.py` lines 173‒191): validate the passes against the
allocate-buckets message for the storage index, check the valid count
against the required count (raising `MorePassesRequired` when short), then
forward the allocation to the wrapped storage object. -/
def remote_allocate_buckets {Preimage Signature UTok VerKey : Type}
    (srv : Server Preimage Signature UTok VerKey) (passes : List Bytes)
    (storage_index : StorageIndex) (renew_secret cancel_secret : Bytes)
    (sharenums : Finset Nat) (allocated_size : Nat) (canary : Nat) :
    Except StorageError AllocForward :=
  let valid_passes :=
    validate_passes srv.ops (allocate_buckets_message storage_index) passes
  match check_pass_quantity_for_write srv.bytes_per_pass valid_passes.length
      sharenums allocated_size with
  | .error e => .error e
  | .ok _ =>
    .ok ⟨storage_index, renew_secret, cancel_secret, sharenums,
      allocated_size, canary⟩

/-- The call `remote_add_lease` / `remote_renew_lease` forwards to the
wrapped storage object on success: the storage index plus the untouched
remaining positional arguments. -/
structure LeaseForward where
  kind : OpKind
  storage_index : StorageIndex
  args : List Bytes
  deriving DecidableEq

/-- `ZKAPAuthorizerStorageServer.remote_add_lease` (`_storage_server.py`
lines 200‒206): the source computes `self._validate_passes(...)` but
discards the result, then forwards unconditionally. -/
def remote_add_lease {Preimage Signature UTok VerKey : Type}
    (srv : Server Preimage Signature UTok VerKey) (passes : List Bytes)
    (storage_index : StorageIndex) (args : List Bytes) :
    Except StorageError LeaseForward :=
  let _valid := validate_passes srv.ops (add_lease_message storage_index) passes
  .ok ⟨OpKind.add_lease, storage_index, args⟩

/-- `ZKAPAuthorizerStorageServer.remote_renew_lease` (`_storage_server.py`
lines 208‒214): the source computes `self._validate_passes(...)` but
discards the result, then forwards unconditionally. -/
def remote_renew_lease {Preimage Signature UTok VerKey : Type}
    (srv : Server Preimage Signature UTok VerKey) (passes : List Bytes)
    (storage_index : StorageIndex) (args : List Bytes) :
    Except StorageError LeaseForward :=
  let _valid := validate_passes srv.ops (renew_lease_message storage_index) passes
  .ok ⟨OpKind.renew_lease, storage_index, args⟩

/-- The call `remote_slot_testv_and_readv_and_writev` forwards to
`self._original.slot_testv_and_readv_and_writev(...)` on success: the pass
argument is stripped and the internal `renew_leases` flag is added. -/
structure SlotForward where
  storage_index : StorageIndex
  secrets : Bytes
  tw_vectors : TWVectors
  r_vector : List Nat
  renew_leases : Bool
  deriving DecidableEq

/-- `ZKAPAuthorizerStorageServer.remote_slot_testv_and_readv_and_writev`
(`_storage_server.py` lines 223‒270): `renew_leases` starts `False`; when
the vectors contain a write and the storage index has no lease expiring
after the injected clock's reading, the passes are validated against the
slot-write message and the valid count checked against the vectors'
required count (raising `MorePassesRequired` when short), and
`renew_leases` becomes `True`; finally the call is forwarded to the
wrapped object's `slot_testv_and_readv_and_writev` with that flag. -/
def remote_slot_testv_and_readv_and_writev
    {Preimage Signature UTok VerKey : Type}
    (srv : Server Preimage Signature UTok VerKey) (passes : List Bytes)
    (storage_index : StorageIndex) (secrets : Bytes)
    (tw_vectors : TWVectors) (r_vector : List Nat) :
    Except StorageError SlotForward :=
  if has_writes tw_vectors then
    if has_active_lease srv.original storage_index srv.clock_seconds then
      .ok ⟨storage_index, secrets, tw_vectors, r_vector, false⟩
    else
      let valid_passes :=
        validate_passes srv.ops
          (slot_testv_and_readv_and_writev_message storage_index) passes
      match check_pass_quantity_for_mutable_write srv.bytes_per_pass
          valid_passes.length tw_vectors with
      | .error e => .error e
      | .ok _ => .ok ⟨storage_index, secrets, tw_vectors, r_vector, true⟩
  else
    .ok ⟨storage_index, secrets, tw_vectors, r_vector, false⟩

/-! ## `spending.py`: the client-side pass-group lifecycle -/

/-- A continuation byte of a UTF-8 sequence (`0x80‒0xBF`). -/
def isContinuation (b : Nat) : Bool :=
  0x80 ≤ b && b ≤ 0xBF

/-- Whether a byte string is valid (strict, RFC 3629) UTF-8, i.e. whether
Python's `bytes.decode("utf-8")` succeeds on it rather than raising
`UnicodeDecodeError`.  Overlong encodings, surrogates (`0xED A0‒BF ..`)
and code points above `U+10FFFF` are rejected, as CPython's strict decoder
rejects them. -/
def isValidUtf8 : Bytes → Bool
  | [] => true
  | b :: rest =>
    if b ≤ 0x7F then
      isValidUtf8 rest
    else if 0xC2 ≤ b && b ≤ 0xDF then
      match rest with
      | c1 :: rest2 => isContinuation c1 && isValidUtf8 rest2
      | [] => false
    else if b = 0xE0 then
      match rest with
      | c1 :: c2 :: rest2 =>
        (0xA0 ≤ c1 && c1 ≤ 0xBF) && isContinuation c2 && isValidUtf8 rest2
      | _ => false
    else if (0xE1 ≤ b && b ≤ 0xEC) || b = 0xEE || b = 0xEF then
      match rest with
      | c1 :: c2 :: rest2 =>
        isContinuation c1 && isContinuation c2 && isValidUtf8 rest2
      | _ => false
    else if b = 0xED then
      match rest with
      | c1 :: c2 :: rest2 =>
        (0x80 ≤ c1 && c1 ≤ 0x9F) && isContinuation c2 && isValidUtf8 rest2
      | _ => false
    else if b = 0xF0 then
      match rest with
      | c1 :: c2 :: c3 :: rest2 =>
        (0x90 ≤ c1 && c1 ≤ 0xBF) && isContinuation c2 && isContinuation c3
          && isValidUtf8 rest2
      | _ => false
    else if 0xF1 ≤ b && b ≤ 0xF3 then
      match rest with
      | c1 :: c2 :: c3 :: rest2 =>
        isContinuation c1 && isContinuation c2 && isContinuation c3
          && isValidUtf8 rest2
      | _ => false
    else if b = 0xF4 then
      match rest with
      | c1 :: c2 :: c3 :: rest2 =>
        (0x80 ≤ c1 && c1 ≤ 0x8F) && isContinuation c2 && isContinuation c3
          && isValidUtf8 rest2
      | _ => false
    else
      false

/-- `PassGroup` (`spending.py` lines 120‒177): the binding message
(`self._message`), the identity of the factory back-reference
(`self._factory`, reduced to an identifier because only reference equality
matters to the verified claims), and the `(UnblindedToken, Pass)` pair
list (`self._tokens`). -/
structure PassGroup (Tok Pss : Type) where
  message : Bytes
  factory : Nat
  tokens : List (Tok × Pss)
  deriving DecidableEq

/-- `PassGroup.passes`: the second projection of the pair list, in order. -/
def PassGroup.passes {Tok Pss : Type} (g : PassGroup Tok Pss) : List Pss :=
  g.tokens.map (fun t => t.2)

/-- `PassGroup.unblinded_tokens`: the first projection of the pair list,
in order. -/
def PassGroup.unblinded_tokens {Tok Pss : Type} (g : PassGroup Tok Pss) :
    List Tok :=
  g.tokens.map (fun t => t.1)

/-- The `enumerate` loop of `PassGroup.split` (`spending.py` lines
148‒159), started at index `idx`: pairs whose running index satisfies the
membership test go to the first list, the rest to the second, both in
order. -/
def splitTokens {Tok Pss : Type} (select : Nat → Bool) :
    Nat → List (Tok × Pss) → List (Tok × Pss) × List (Tok × Pss)
  | _, [] => ([], [])
  | idx, t :: ts =>
    let rest := splitTokens select (idx + 1) ts
    if select idx then
      (t :: rest.1, rest.2)
    else
      (rest.1, t :: rest.2)

/-- `PassGroup.split` (`spending.py` lines 148‒159): partition the pair
list by positional index (`idx in select_indices`, with the container
modelled as its membership test) and build the two results with
`attr.evolve`, which keeps `_message` and `_factory` and replaces
`_tokens`. -/
def PassGroup.split {Tok Pss : Type} (g : PassGroup Tok Pss)
    (select : Nat → Bool) : PassGroup Tok Pss × PassGroup Tok Pss :=
  let st := splitTokens select 0 g.tokens
  ({ g with tokens := st.1 }, { g with tokens := st.2 })

/-- A call a `PassGroup` terminal method makes on its factory
(`self._factory.mark_spent(...)` etc.), carrying the group's unblinded
tokens. -/
inductive FactoryCall (Tok : Type) where
  | markSpent (tokens : List Tok)
  | markInvalid (reason : String) (tokens : List Tok)
  | resetTokens (tokens : List Tok)
  deriving DecidableEq

/-- `PassGroup.mark_spent` (`spending.py` lines 170‒171): call
`self._factory.mark_spent(self.unblinded_tokens)`.  The method inspects no
state of its own and returns `None`; its observable behaviour is the
factory call it makes, which this embedding returns. -/
def PassGroup.mark_spent {Tok Pss : Type} (g : PassGroup Tok Pss) :
    FactoryCall Tok :=
  .markSpent g.unblinded_tokens

/-- `PassGroup.mark_invalid` (`spending.py` lines 173‒174): call
`self._factory.mark_invalid(reason, self.unblinded_tokens)`. -/
def PassGroup.mark_invalid {Tok Pss : Type} (g : PassGroup Tok Pss)
    (reason : String) : FactoryCall Tok :=
  .markInvalid reason g.unblinded_tokens

/-- `PassGroup.reset` (`spending.py` lines 176‒177): call
`self._factory.reset(self.unblinded_tokens)`. -/
def PassGroup.reset {Tok Pss : Type} (g : PassGroup Tok Pss) :
    FactoryCall Tok :=
  .resetTokens g.unblinded_tokens

/-- A terminal method of `IPassGroup`, as a selectable value. -/
inductive TerminalMethod where
  | markSpent
  | markInvalid (reason : String)
  | resetGroup
  deriving DecidableEq

/-- Dispatch one terminal method on a group, as the source implements it
(no state is consulted or recorded). -/
def applyTerminal {Tok Pss : Type} (g : PassGroup Tok Pss) :
    TerminalMethod → FactoryCall Tok
  | .markSpent => g.mark_spent
  | .markInvalid reason => g.mark_invalid reason
  | .resetGroup => g.reset

/-- Run a sequence of terminal-method calls on one group instance.  The
result is `Except.error ()` if some call raises (fails loudly), else the
list of factory calls performed.  The source's methods never raise and
keep no terminal state, so every call simply forwards to the factory
again. -/
def runTerminals {Tok Pss : Type} (g : PassGroup Tok Pss)
    (methods : List TerminalMethod) :
    Except Unit (List (FactoryCall Tok)) :=
  .ok (methods.map (applyTerminal g))

/-- The token inventory's visible state: the pool of unblinded tokens
still available to be drawn. -/
structure SpendingState (Tok : Type) where
  available : List Tok
  deriving DecidableEq

/-- Modelled from the spec: `VoucherStore.get_unblinded_tokens` (the
voucher store, `model.py`, is absent from `src/`; spec §6: "`get(n) ->
[UnblindedToken]` (fails if fewer than `n` available)").  On success the
first `n` available tokens are handed out and removed from the pool. -/
def get_unblinded_tokens {Tok : Type} (n : Nat) (st : SpendingState Tok) :
    Except Unit (List Tok × SpendingState Tok) :=
  if st.available.length < n then
    .error ()
  else
    .ok (st.available.take n, ⟨st.available.drop n⟩)

/-- An exception escaping `SpendingController.get`: the inventory draw
failing (spec's `InsufficientTokens`), or the `UnicodeDecodeError` raised
by `message.decode("utf-8")` while the event record's fields are being
built. -/
inductive GetError where
  | insufficientTokens
  | unicodeDecodeError
  deriving DecidableEq, Repr

/-- `SpendingController.get` (`spending.py` lines 209‒216), with the
injected `tokens_to_passes` conversion as the parameter `ttp` and the
controller's identity as `factoryId` (the group keeps a back-reference to
it).  The source draws the tokens (`self.get_unblinded_tokens(num_passes)`,
a side effect on the inventory), converts them to passes, and only then
evaluates `message.decode("utf-8")` for `GET_PASSES.log(...)` — so a
non-UTF-8 message raises after the draw has already happened, and the
returned state has the tokens removed even though no group is returned. -/
def SpendingController.get {Tok Pss : Type}
    (ttp : Bytes → List Tok → List Pss) (factoryId : Nat)
    (message : Bytes) (num_passes : Nat) (st : SpendingState Tok) :
    SpendingState Tok × Except GetError (PassGroup Tok Pss) :=
  match get_unblinded_tokens num_passes st with
  | .error _ => (st, .error .insufficientTokens)
  | .ok (unblinded_tokens, st2) =>
    let passes := ttp message unblinded_tokens
    if isValidUtf8 message then
      (st2, .ok ⟨message, factoryId, unblinded_tokens.zip passes⟩)
    else
      (st2, .error .unicodeDecodeError)

deriving instance DecidableEq for Except

/-- The unblinded tokens a factory call carries (the argument the group
passes to the factory). -/
def tokensOfCall {Tok : Type} : FactoryCall Tok → List Tok
  | .markSpent tokens => tokens
  | .markInvalid _ tokens => tokens
  | .resetTokens tokens => tokens

/-! ## Concrete instances (used to instantiate the theorems below) -/

/-- A concrete cryptographic oracle over `Nat` codes: the preimage half
must be the byte string `[1]` and the signature half `[2]`; anything else
fails to decode, and a rederived signature other than `2` fails
verification.  Under it the pass `[1, 32, 2]` (i.e. `b"\x01 \x02"`) is
valid and every other byte string is invalid. -/
def opsNat : CryptoOps Message Nat Nat Nat Nat where
  encodeUtf8 := fun _ => []
  decodePreimageBase64 := fun bs => if bs = [1] then some 1 else none
  decodeSignatureBase64 := fun bs => if bs = [2] then some 2 else none
  rederiveUnblindedToken := fun preimage => some preimage
  deriveVerificationKeySha512 := fun unblinded => some unblinded
  invalidSha512 := fun _ signature _ => some (decide (signature ≠ 2))

/-- A wrapped storage object with no leases on any slot. -/
def origNoLease : OrigStorage :=
  ⟨fun _ => []⟩

/-- A wrapped storage object with one lease, expiring at time 200, on
every slot. -/
def origWithLease : OrigStorage :=
  ⟨fun _ => [⟨200⟩]⟩

/-- A concrete server at clock reading 100 over `origNoLease`, with 1000
bytes per pass. -/
def srvNoLease : Server Nat Nat Nat Nat :=
  ⟨opsNat, origNoLease, 100, 1000⟩

/-- A concrete server at clock reading 100 over `origWithLease` (the lease
expiring at 200 is active), with 1000 bytes per pass. -/
def srvWithLease : Server Nat Nat Nat Nat :=
  ⟨opsNat, origWithLease, 100, 1000⟩

/-- Test-and-write vectors with an entry for share 0 but no data
fragments: a read-only (test) call. -/
def twNoWrites : TWVectors :=
  [(0, ⟨[], [], none⟩)]

/-- Test-and-write vectors writing two bytes at offset 0 of share 0. -/
def twWrite : TWVectors :=
  [(0, ⟨[], [(0, [7, 7])], none⟩)]

/-- A concrete pass group: message `[109]`, factory id 0, one pair
`(token 5, pass 50)`. -/
def g9 : PassGroup Nat Nat :=
  ⟨[109], 0, [(5, 50)]⟩

/-! ## Helper lemmas -/

/-- When the vectors contain a write, some share has a non-empty data
vector, so `get_allocated_size` does not raise. -/
theorem get_allocated_size_isSome_of_has_writes (tw_vectors : TWVectors)
    (hw : has_writes tw_vectors = true) :
    ∃ n, get_allocated_size tw_vectors = some n := by
  unfold get_allocated_size
  rcases List.any_eq_true.mp hw with ⟨item, hmem, hdata⟩
  have hne :
      (tw_vectors.filter (fun item => !item.2.data.isEmpty)) ≠ [] := by
    intro hnil
    have := List.filter_eq_nil_iff.mp hnil item hmem
    simp_all
  simp only []
  rw [if_neg]
  · exact ⟨_, rfl⟩
  · simp [List.isEmpty_iff, hne]

/-! ## Claim theorems -/

/-- C4: the single-pass validity check of
`ZKAPAuthorizerStorageServer._is_invalid_pass` is total (it is a Lean
function into `Bool`, with the `except Exception:` catch-all embedded in
`is_invalid_pass` itself, so no exception propagates) and fails closed:
the check reports "valid" (`false`, i.e. not invalid) exactly when every
step of the `try:` body succeeded and the cryptographic verification
reported the signature good; equivalently, every internal failure — a
missing/extra delimiter (`splitOnByte` not yielding two halves), a base64
decode failure of either half, a malformed signature, or a verification
mismatch — yields "not valid" (`true`). -/
theorem is_invalid_pass_fail_closed
    {Msg Preimage Signature UTok VerKey : Type}
    (ops : CryptoOps Msg Preimage Signature UTok VerKey)
    (message : Msg) (pass_ : Bytes) :
    (is_invalid_pass ops message pass_ = false ↔
      isInvalidPassCore ops message pass_ = Except.ok false) ∧
    (is_invalid_pass ops message pass_ = true ↔
      isInvalidPassCore ops message pass_ ≠ Except.ok false) := by
  cases h : isInvalidPassCore ops message pass_ with
  | ok b => cases b <;> simp [is_invalid_pass, h]
  | error e => simp [is_invalid_pass, h]

/-- C7: `_validate_passes` returns an order-preserving subsequence of its
input; a pass is retained exactly when it is individually valid (so no
pass's validity depends on the others in the list); the operation is a
pure function (deterministic by construction) and filtering its own
output returns it unchanged. -/
theorem validate_passes_order_preserving_filter
    {Msg Preimage Signature UTok VerKey : Type}
    (ops : CryptoOps Msg Preimage Signature UTok VerKey)
    (message : Msg) (passes : List Bytes) :
    (validate_passes ops message passes).Sublist passes ∧
    (∀ pass_ : Bytes, pass_ ∈ validate_passes ops message passes ↔
      pass_ ∈ passes ∧ is_invalid_pass ops message pass_ = false) ∧
    validate_passes ops message (validate_passes ops message passes) =
      validate_passes ops message passes := by
  refine ⟨List.filter_sublist passes, ?_, ?_⟩
  · intro pass_
    simp [validate_passes, List.mem_filter]
  · simp [validate_passes, List.filter_filter]

/-- C5: for a positive `bytes_per_pass`, the required pass count is
`ceil(size / bytes_per_pass)` (stated against Mathlib's rational ceiling),
is `0` at `size = 0`, is never negative (the codomain is `ℕ`, and the
value is stated `≥ 0` explicitly), is monotone in the size, and for an
allocation `required_passes` depends only on the allocated size, not on
the share numbers. -/
theorem required_passes_ceil_properties (b size s1 s2 alloc : Nat)
    (sharenums : Finset Nat) (hb : 0 < b) (hs : s1 ≤ s2) :
    required_for_bytes b 0 = 0 ∧
    0 ≤ required_for_bytes b size ∧
    required_for_bytes b size = ⌈(size : ℚ) / (b : ℚ)⌉₊ ∧
    required_for_bytes b s1 ≤ required_for_bytes b s2 ∧
    required_passes b sharenums alloc = required_for_bytes b alloc := by
  have hbq : (0 : ℚ) < (b : ℚ) := by exact_mod_cast hb
  have hceil : required_for_bytes b size = size ⌈/⌉ b := rfl
  refine ⟨?_, Nat.zero_le _, ?_, ?_, rfl⟩
  · unfold required_for_bytes
    exact Nat.div_eq_of_lt (by omega)
  · apply le_antisymm
    · rw [hceil, ceilDiv_le_iff_le_mul hb]
      have h1 : (size : ℚ) ≤ (b : ℚ) * (⌈(size : ℚ) / (b : ℚ)⌉₊ : ℚ) := by
        have h2 := Nat.le_ceil ((size : ℚ) / (b : ℚ))
        calc (size : ℚ) = (b : ℚ) * ((size : ℚ) / (b : ℚ)) := by
              field_simp
          _ ≤ (b : ℚ) * (⌈(size : ℚ) / (b : ℚ)⌉₊ : ℚ) := by
              exact mul_le_mul_of_nonneg_left h2 (le_of_lt hbq)
      exact_mod_cast h1
    · apply Nat.ceil_le.mpr
      rw [div_le_iff₀ hbq]
      have h3 : size ≤ b * (size ⌈/⌉ b) := le_smul_ceilDiv hb
      have h4 : (size : ℚ) ≤ (b : ℚ) * ((size ⌈/⌉ b : Nat) : ℚ) := by
        exact_mod_cast h3
      rw [hceil]
      linarith
  · unfold required_for_bytes
    exact Nat.div_le_div_right (by omega)

/-- Witness for C5 at `bytes_per_pass = 3`, sizes `0, 7, 2 ≤ 5`,
allocation of size 7 over shares `{0, 1, 2}`. -/
theorem required_passes_ceil_properties_witness :
    0 < 3 ∧ 2 ≤ 5 ∧
    (required_for_bytes 3 0 = 0 ∧
     0 ≤ required_for_bytes 3 7 ∧
     required_for_bytes 3 7 = ⌈(7 : ℚ) / (3 : ℚ)⌉₊ ∧
     required_for_bytes 3 2 ≤ required_for_bytes 3 5 ∧
     required_passes 3 {0, 1, 2} 7 = required_for_bytes 3 7) :=
  ⟨by decide, by decide,
    required_passes_ceil_properties 3 7 2 5 7 {0, 1, 2} (by decide)
      (by decide)⟩

/-- C1: the mutable-write gate demands pass authorization only when the
vectors contain a write and no active lease covers the storage index.  In
both exempt cases — no write in the vectors, or an active lease
(expiration strictly after the injected clock's reading) — the call is
forwarded to the wrapped storage object with `renew_leases = False`, for
every list of supplied passes (so no pass is validated, consumed, or even
looked at, regardless of write size). -/
theorem slot_write_passthrough_without_auth
    {Preimage Signature UTok VerKey : Type}
    (srv : Server Preimage Signature UTok VerKey) (passes : List Bytes)
    (storage_index : StorageIndex) (secrets : Bytes)
    (tw_vectors : TWVectors) (r_vector : List Nat)
    (h : has_writes tw_vectors = false ∨
      has_active_lease srv.original storage_index srv.clock_seconds = true) :
    remote_slot_testv_and_readv_and_writev srv passes storage_index secrets
      tw_vectors r_vector =
      Except.ok ⟨storage_index, secrets, tw_vectors, r_vector, false⟩ := by
  unfold remote_slot_testv_and_readv_and_writev
  rcases h with h | h
  · simp [h]
  · cases hw : has_writes tw_vectors <;> simp [h, hw]

/-- Witness for C1: a server whose wrapped storage holds a lease expiring
at 200 with the clock at 100 (an active lease), a write of two bytes, and
no passes at all: the call is forwarded with `renew_leases = False`. -/
theorem slot_write_passthrough_without_auth_witness :
    (has_writes twWrite = false ∨
      has_active_lease srvWithLease.original [3] srvWithLease.clock_seconds
        = true) ∧
    remote_slot_testv_and_readv_and_writev srvWithLease [] [3] [] twWrite []
      = Except.ok ⟨[3], [], twWrite, [], false⟩ :=
  ⟨Or.inr (by decide),
    slot_write_passthrough_without_auth srvWithLease [] [3] [] twWrite []
      (Or.inr (by decide))⟩

/-- C2: when the vectors contain a write and no active lease covers the
storage index, the gate validates the supplied passes against the
slot-write binding message for that index and compares the count of valid
passes (not the count supplied) with the required count for the vectors:
if the valid count is at least the required count the call is forwarded
with `renew_leases = True` (lease creation instructed as part of the same
underlying call); otherwise the call raises
`MorePassesRequired(valid_count, required_count)` and nothing is
forwarded (the `Except.error` result carries no forwarded call, so no
write and no lease creation occur). -/
theorem slot_write_gate_when_unleased
    {Preimage Signature UTok VerKey : Type}
    (srv : Server Preimage Signature UTok VerKey) (passes : List Bytes)
    (storage_index : StorageIndex) (secrets : Bytes)
    (tw_vectors : TWVectors) (r_vector : List Nat)
    (hw : has_writes tw_vectors = true)
    (hl : has_active_lease srv.original storage_index srv.clock_seconds
      = false) :
    remote_slot_testv_and_readv_and_writev srv passes storage_index secrets
      tw_vectors r_vector =
      (if (validate_passes srv.ops
            (slot_testv_and_readv_and_writev_message storage_index)
            passes).length <
          required_passes srv.bytes_per_pass (get_sharenums tw_vectors)
            ((get_allocated_size tw_vectors).getD 0) then
        Except.error (StorageError.morePassesRequired
          (validate_passes srv.ops
            (slot_testv_and_readv_and_writev_message storage_index)
            passes).length
          (required_passes srv.bytes_per_pass (get_sharenums tw_vectors)
            ((get_allocated_size tw_vectors).getD 0)))
      else
        Except.ok ⟨storage_index, secrets, tw_vectors, r_vector, true⟩) := by
  obtain ⟨n, hn⟩ := get_allocated_size_isSome_of_has_writes tw_vectors hw
  unfold remote_slot_testv_and_readv_and_writev
  simp only [hw, hl, if_true, if_false, Bool.true_eq_false,
    Bool.false_eq_true, reduceIte]
  unfold check_pass_quantity_for_mutable_write
  rw [hn]
  unfold check_pass_quantity_for_write
  simp only [hn, Option.getD_some]
  by_cases hc : (validate_passes srv.ops
      (slot_testv_and_readv_and_writev_message storage_index)
      passes).length <
      required_passes srv.bytes_per_pass (get_sharenums tw_vectors) n <;>
    simp [hc]

/-- Witness for C2: an unleased slot, a two-byte write (requiring one
pass at 1000 bytes per pass), and one valid pass supplied: the call is
forwarded with `renew_leases = True`. -/
theorem slot_write_gate_when_unleased_witness :
    has_writes twWrite = true ∧
    has_active_lease srvNoLease.original [3] srvNoLease.clock_seconds
      = false ∧
    remote_slot_testv_and_readv_and_writev srvNoLease [[1, 32, 2]] [3] []
      twWrite [] =
      (if (validate_passes srvNoLease.ops
            (slot_testv_and_readv_and_writev_message [3])
            [[1, 32, 2]]).length <
          required_passes srvNoLease.bytes_per_pass (get_sharenums twWrite)
            ((get_allocated_size twWrite).getD 0) then
        Except.error (StorageError.morePassesRequired
          (validate_passes srvNoLease.ops
            (slot_testv_and_readv_and_writev_message [3])
            [[1, 32, 2]]).length
          (required_passes srvNoLease.bytes_per_pass (get_sharenums twWrite)
            ((get_allocated_size twWrite).getD 0)))
      else
        Except.ok ⟨[3], [], twWrite, [], true⟩) :=
  ⟨by decide, by decide,
    slot_write_gate_when_unleased srvNoLease [[1, 32, 2]] [3] [] twWrite []
      (by decide) (by decide)⟩

/-- C3: `remote_allocate_buckets` validates the supplied passes against
the allocate-buckets binding message for the storage index and compares
the valid count with the count required for the requested share numbers
and allocated size: when short it raises
`MorePassesRequired(valid_count, required_count)` and nothing is
forwarded (the `Except.error` result carries no forwarded allocation, so
no side effect reaches the wrapped storage object); otherwise the
allocation is forwarded. -/
theorem allocate_buckets_gate {Preimage Signature UTok VerKey : Type}
    (srv : Server Preimage Signature UTok VerKey) (passes : List Bytes)
    (storage_index : StorageIndex) (renew_secret cancel_secret : Bytes)
    (sharenums : Finset Nat) (allocated_size : Nat) (canary : Nat) :
    remote_allocate_buckets srv passes storage_index renew_secret
      cancel_secret sharenums allocated_size canary =
      (if (validate_passes srv.ops (allocate_buckets_message storage_index)
            passes).length <
          required_passes srv.bytes_per_pass sharenums allocated_size then
        Except.error (StorageError.morePassesRequired
          (validate_passes srv.ops (allocate_buckets_message storage_index)
            passes).length
          (required_passes srv.bytes_per_pass sharenums allocated_size))
      else
        Except.ok ⟨storage_index, renew_secret, cancel_secret, sharenums,
          allocated_size, canary⟩) := by
  unfold remote_allocate_buckets check_pass_quantity_for_write
  by_cases hc : (validate_passes srv.ops
      (allocate_buckets_message storage_index) passes).length <
      required_passes srv.bytes_per_pass sharenums allocated_size <;>
    simp [hc]

/-- C6 (code bug): the source of `remote_add_lease` and
`remote_renew_lease` computes `self._validate_passes(...)` but discards
the result and forwards the lease operation unconditionally — for every
list of supplied passes, including ones containing no valid pass at all,
the call is forwarded; nothing is ever rejected, contradicting the
methods' own docstrings ("ensure clients can only extend the duration of
share storage if they present valid passes"). -/
theorem lease_methods_forward_unconditionally
    {Preimage Signature UTok VerKey : Type}
    (srv : Server Preimage Signature UTok VerKey) (passes : List Bytes)
    (storage_index : StorageIndex) (args : List Bytes) :
    remote_add_lease srv passes storage_index args =
      Except.ok ⟨OpKind.add_lease, storage_index, args⟩ ∧
    remote_renew_lease srv passes storage_index args =
      Except.ok ⟨OpKind.renew_lease, storage_index, args⟩ :=
  ⟨rfl, rfl⟩

/-- The selected half of `splitTokens` is the ordered projection of the
enumerated pairs whose index passes the membership test. -/
theorem splitTokens_fst_eq {Tok Pss : Type} (select : Nat → Bool) (i : Nat)
    (ts : List (Tok × Pss)) :
    (splitTokens select i ts).1 =
      ((ts.enumFrom i).filter (fun it => select it.1)).map Prod.snd := by
  induction ts generalizing i with
  | nil => rfl
  | cons t ts ih =>
    simp only [splitTokens, List.enumFrom, List.filter_cons]
    by_cases hs : select i <;> simp [hs, ih (i + 1)]

/-- The unselected half of `splitTokens` is the ordered projection of the
enumerated pairs whose index fails the membership test. -/
theorem splitTokens_snd_eq {Tok Pss : Type} (select : Nat → Bool) (i : Nat)
    (ts : List (Tok × Pss)) :
    (splitTokens select i ts).2 =
      ((ts.enumFrom i).filter (fun it => !select it.1)).map Prod.snd := by
  induction ts generalizing i with
  | nil => rfl
  | cons t ts ih =>
    simp only [splitTokens, List.enumFrom, List.filter_cons]
    by_cases hs : select i <;> simp [hs, ih (i + 1)]

/-- The two halves of `splitTokens` together are a permutation of the
input (no pair duplicated or dropped). -/
theorem splitTokens_perm {Tok Pss : Type} (select : Nat → Bool) (i : Nat)
    (ts : List (Tok × Pss)) :
    ((splitTokens select i ts).1 ++ (splitTokens select i ts).2).Perm ts := by
  induction ts generalizing i with
  | nil => simp [splitTokens]
  | cons t ts ih =>
    simp only [splitTokens]
    by_cases hs : select i
    · simpa [hs] using (ih (i + 1)).cons t
    · simpa [hs] using List.perm_middle.trans ((ih (i + 1)).cons t)

/-- C8: `PassGroup.split` partitions the pair list by positional index —
the first result holds exactly the pairs whose index is selected and the
second exactly the others, both in the original order; both results keep
the original group's binding message and factory reference; and the
ordered union of the two results' pair lists is a permutation (equal as a
multiset) of the original pair list, for every selection of indices. -/
theorem pass_group_split_partition {Tok Pss : Type}
    (g : PassGroup Tok Pss) (select : Nat → Bool) :
    (g.split select).1.message = g.message ∧
    (g.split select).1.factory = g.factory ∧
    (g.split select).2.message = g.message ∧
    (g.split select).2.factory = g.factory ∧
    (g.split select).1.tokens =
      (g.tokens.enum.filter (fun it => select it.1)).map Prod.snd ∧
    (g.split select).2.tokens =
      (g.tokens.enum.filter (fun it => !select it.1)).map Prod.snd ∧
    ((g.split select).1.tokens ++ (g.split select).2.tokens).Perm
      g.tokens := by
  refine ⟨rfl, rfl, rfl, rfl, ?_, ?_, ?_⟩
  · simpa [PassGroup.split, List.enum] using splitTokens_fst_eq select 0 g.tokens
  · simpa [PassGroup.split, List.enum] using splitTokens_snd_eq select 0 g.tokens
  · simpa [PassGroup.split] using splitTokens_perm select 0 g.tokens

/-- Counterexample to C9 as stated: on the concrete group `g9` (one
`(token 5, pass 50)` pair), calling `mark_spent` twice does not fail
loudly — the second call succeeds and forwards the group's tokens to the
factory a second time. -/
theorem double_terminal_call_counterexample :
    runTerminals g9 [TerminalMethod.markSpent, TerminalMethod.markSpent] =
      Except.ok [FactoryCall.markSpent [5], FactoryCall.markSpent [5]] ∧
    runTerminals g9 [TerminalMethod.markSpent, TerminalMethod.markSpent] ≠
      Except.error () := by
  exact ⟨rfl, by decide⟩

/-- C9 (amended): `PassGroup` records no terminal state, so a second
terminal method call on the same group instance does not fail with any
programming-error signal — every sequence of two terminal calls succeeds
and each call forwards the group's unblinded tokens to the factory
(again). -/
theorem terminal_calls_always_forward {Tok Pss : Type}
    (g : PassGroup Tok Pss) (m1 m2 : TerminalMethod) :
    runTerminals g [m1, m2] =
      Except.ok [applyTerminal g m1, applyTerminal g m2] ∧
    tokensOfCall (applyTerminal g m1) = g.unblinded_tokens ∧
    tokensOfCall (applyTerminal g m2) = g.unblinded_tokens :=
  ⟨rfl, by cases m1 <;> rfl, by cases m2 <;> rfl⟩

/-- C10: when the binding message is not valid UTF-8 and the inventory
can satisfy the draw, `SpendingController.get` first removes the drawn
tokens from the available pool and only then hits the decode error while
building its event record: the result state has the tokens gone (the draw
is not rolled back) and the caller gets the error instead of a
`PassGroup`. -/
theorem spending_get_non_utf8_message {Tok Pss : Type}
    (ttp : Bytes → List Tok → List Pss) (factoryId : Nat)
    (message : Bytes) (num_passes : Nat) (st : SpendingState Tok)
    (hmsg : isValidUtf8 message = false)
    (hn : num_passes ≤ st.available.length) :
    SpendingController.get ttp factoryId message num_passes st
      = (⟨st.available.drop num_passes⟩,
        Except.error GetError.unicodeDecodeError) := by
  unfold SpendingController.get get_unblinded_tokens
  simp [Nat.not_lt.mpr hn, hmsg]

/-- Witness for C10: message `[255]` (not UTF-8), drawing 1 token from an
inventory of two: the token `4` is gone from the pool and no group is
returned. -/
theorem spending_get_non_utf8_message_witness :
    isValidUtf8 [255] = false ∧
    1 ≤ (SpendingState.mk ([4, 5] : List Nat)).available.length ∧
    SpendingController.get (fun (_ : Bytes) (tokens : List Nat) => tokens) 0
      [255] 1 ⟨[4, 5]⟩ =
      (⟨[5]⟩, Except.error GetError.unicodeDecodeError) :=
  ⟨by decide, by decide,
    spending_get_non_utf8_message
      (fun (_ : Bytes) (tokens : List Nat) => tokens) 0 [255] 1
      ⟨[4, 5]⟩ (by decide) (by decide)⟩
